import Mathlib

/-!
Verification of the egaku2d batched 2D drawing pipeline

A shallow embedding of the egaku2d core rendering pipeline
(`egaku2d_core/src/lib.rs` and `very_simple_2d_core/src/sprite_program.rs`)
together with proofs about its viewport transform, its session protocol and
the OpenGL call traces its draw path produces.

Modelling conventions:
* `f32` values are embedded as exact rationals (`ℚ`).
* Calls into the OpenGL capability are reified as a trace, a `List GLCall`;
  a function that makes GL calls returns its trace alongside its result.
* GL object handles (program ids, buffer ids, uniform locations) are plain
  numbers carried in the program structs, exactly as the Rust structs do.
-/

set_option autoImplicit false

namespace Egaku2d

/-- The `gl::ARRAY_BUFFER` binding target (0x8892). -/
def ARRAY_BUFFER : Nat := 34962

/-- The `gl::POINTS` primitive mode (0x0000). -/
def GL_POINTS : Nat := 0

/-- The `gl::TRIANGLES` primitive mode (0x0004). -/
def GL_TRIANGLES : Nat := 4

/-- `axgeom::FixedAspectVec2`: a window dimension in pixels.  The `axgeom`
crate is an external dependency; only the fields the pipeline reads are
modelled. -/
structure FixedAspectVec2 where
  width : ℚ
  height : ℚ
  deriving Repr, DecidableEq

/-- `window_dim.ratio.height_over_width()`: the aspect quotient height/width. -/
def FixedAspectVec2.heightOverWidth (d : FixedAspectVec2) : ℚ :=
  d.height / d.width

/-- A 3x3 matrix in the column-major layout the Rust code hands to
`gl::UniformMatrix3fv` (a list of three columns). -/
abbrev Matrix3 : Type := List (List ℚ)

/-- One call into the OpenGL capability, as issued by the pipeline. -/
inductive GLCall where
  | useProgram (program : Nat)
  | uniformMatrix3fv (loc : Int) (m : Matrix3)
  | uniform1f (loc : Int) (v : ℚ)
  | uniform4fv (loc : Int) (v : List ℚ)
  | uniform1i (loc : Int) (v : Int)
  | bindBuffer (target : Nat) (id : Nat)
  | bindTexture (target : Nat) (id : Nat)
  | enableVertexAttribArray (loc : Nat)
  | vertexAttribPointer (loc : Nat)
  | drawArrays (mode : Nat) (first : Nat) (count : Nat)
  | bufferData (bufferId : Nat) (len : Nat)
  deriving Repr, DecidableEq

/-- `sprite_program::Vertex`: `#[repr(transparent)] pub struct Vertex(pub [f32; 2])`. -/
structure SpriteVertex where
  pos : ℚ × ℚ
  deriving Repr, DecidableEq

/-- `SpriteProgram` (sprite_program.rs lines 39-47): the linked program handle
plus its cached uniform and attribute locations. -/
structure SpriteProgram where
  program : Nat
  matrix_uniform : Int
  square_uniform : Int
  point_size_uniform : Int
  bcol_uniform : Int
  pos_attr : Int
  deriving Repr, DecidableEq

/-- `PointMul` (sprite_program.rs line 50): the device-per-logical scale factor. -/
structure PointMul where
  val : ℚ
  deriving Repr, DecidableEq

/-- Result of a `set_viewport` call: the matrix it computed, the `PointMul`
it returns, and the GL calls it issued. -/
structure ViewportResult where
  matrix : Matrix3
  pointMul : ℚ
  calls : List GLCall
  deriving Repr

/-- `SpriteProgram::set_viewport` (sprite_program.rs lines 53-82): computes
`game_height = height_over_width * game_width`, `scalex = 2/game_width`,
`scaley = 2/game_height`, uploads
`[[scalex,0,0],[0,-scaley,0],[-1,1,1]]` as the matrix uniform and returns
`PointMul(window_dim.width / game_width)`. -/
def SpriteProgram.set_viewport (sp : SpriteProgram) (window_dim : FixedAspectVec2)
    (game_width : ℚ) : ViewportResult :=
  let game_height := window_dim.heightOverWidth * game_width
  let scalex := 2 / game_width
  let scaley := 2 / game_height
  let tx : ℚ := -1
  let ty : ℚ := 1
  let matrix : Matrix3 := [[scalex, 0, 0], [0, -scaley, 0], [tx, ty, 1]]
  { matrix := matrix
    pointMul := window_dim.width / game_width
    calls := [GLCall.useProgram sp.program,
              GLCall.uniformMatrix3fv sp.matrix_uniform matrix] }

/-- `SpriteProgram::set_buffer_and_draw` (sprite_program.rs lines 84-149),
as the GL call trace it issues: first the documented platform workaround
block (bind the buffer, draw one vertex, unbind), then the real draw block
(use program, upload point-size, color and square uniforms, bind the buffer,
set the attribute layout, draw `length` vertices, unbind). -/
def SpriteProgram.set_buffer_and_draw (sp : SpriteProgram) (point_size : ℚ)
    (col : List ℚ) (square : Nat) (buffer_id : Nat) (mode : Nat)
    (length : Nat) : List GLCall :=
  [GLCall.bindBuffer ARRAY_BUFFER buffer_id,
   GLCall.drawArrays mode 0 1,
   GLCall.bindBuffer ARRAY_BUFFER 0,
   GLCall.useProgram sp.program,
   GLCall.uniform1f sp.point_size_uniform point_size,
   GLCall.uniform4fv sp.bcol_uniform col,
   GLCall.uniform1i sp.square_uniform (Int.ofNat square),
   GLCall.bindBuffer ARRAY_BUFFER buffer_id,
   GLCall.enableVertexAttribArray sp.pos_attr.toNat,
   GLCall.vertexAttribPointer sp.pos_attr.toNat,
   GLCall.drawArrays mode 0 length,
   GLCall.bindBuffer ARRAY_BUFFER 0]

/-- Uniform names declared by `VS_SRC`, the sprite vertex shader source
(sprite_program.rs lines 9-18). -/
def spriteVertexShaderUniforms : List String := ["mmatrix", "point_size"]

/-- Uniform names declared by `FS_SRC`, the sprite fragment shader source
(sprite_program.rs lines 21-32). -/
def spriteFragmentShaderUniforms : List String := ["tex0"]

/-- A concrete sprite program handle, used to instantiate closed scenarios. -/
def sampleSpriteProgram : SpriteProgram :=
  { program := 7, matrix_uniform := 0, square_uniform := 1,
    point_size_uniform := 2, bcol_uniform := 3, pos_attr := 0 }

/-- Recognizes a `DrawArrays` call. -/
def isDraw : GLCall → Bool
  | GLCall.drawArrays _ _ _ => true
  | _ => false

/-- Recognizes a zero-length (vertex count 0) `DrawArrays` call. -/
def isZeroDraw : GLCall → Bool
  | GLCall.drawArrays _ _ 0 => true
  | _ => false

/-- Recognizes a buffer upload. -/
def isUpload : GLCall → Bool
  | GLCall.bufferData _ _ => true
  | _ => false

/-- Recognizes any uniform-upload call. -/
def isUniformCall : GLCall → Bool
  | GLCall.uniform1f _ _ => true
  | GLCall.uniform4fv _ _ => true
  | GLCall.uniform1i _ _ => true
  | GLCall.uniformMatrix3fv _ _ => true
  | _ => false

/-- Recognizes a scalar-integer uniform upload, the call shape used for the
shape-flag ("is-square") uniform. -/
def isShapeFlagCall : GLCall → Bool
  | GLCall.uniform1i _ _ => true
  | _ => false

/-- Recognizes a texture bind. -/
def isBindTexture : GLCall → Bool
  | GLCall.bindTexture _ _ => true
  | _ => false

/-- The `DrawArrays` calls of a trace, in order. -/
def drawsOf (t : List GLCall) : List GLCall := t.filter isDraw

/-- How many buffer uploads a trace performs. -/
def uploadCount (t : List GLCall) : Nat := (t.filter isUpload).length

/-- The buffer bound to `ARRAY_BUFFER` after running a trace, starting from
binding `b`. -/
def boundAfter : Nat → List GLCall → Nat
  | b, [] => b
  | b, GLCall.bindBuffer t id :: rest =>
      boundAfter (if t = ARRAY_BUFFER then id else b) rest
  | b, _ :: rest => boundAfter b rest

/-- Modelled from the spec: `circle_program::Vertex` (circle_program.rs is not
under src/).  Spec §3: a 2D position in logical coordinates plus optional
auxiliary floats encoding rotation/offset for arrow and line shapes. -/
structure CircleVertex where
  pos : ℚ × ℚ
  aux : List ℚ
  deriving Repr, DecidableEq

/-- Modelled from the spec: `vbo::BufferInfo` (vbo.rs is not under src/).
What `get_info` hands to a draw call: the device buffer id and the
logically-used element count. -/
structure BufferInfo where
  id : Nat
  length : Nat
  deriving Repr, DecidableEq

/-- Modelled from the spec: `vbo::GrowableBuffer` (vbo.rs is not under src/).
Spec §3: a device-side `capacity`, a logically-used `length`, and the
host-side staging collection, with `length ≤ capacity` after every sync.
`bufferId` is the GL buffer object the device storage lives in. -/
structure GrowableBuffer (α : Type) where
  bufferId : Nat
  capacity : Nat
  length : Nat
  staging : List α
  deriving Repr, DecidableEq

/-- Modelled from the spec: a fresh `GrowableBuffer` around GL buffer `id`
with nothing staged and nothing used. -/
def GrowableBuffer.new (α : Type) (id : Nat) : GrowableBuffer α :=
  { bufferId := id, capacity := 0, length := 0, staging := [] }

/-- Modelled from the spec: `clear()` resets length to 0 and empties host
staging; it never touches device storage (spec §4.2). -/
def GrowableBuffer.clear {α : Type} (b : GrowableBuffer α) : GrowableBuffer α :=
  { b with length := 0, staging := [] }

/-- Modelled from the spec: `push`/`append(vertex)` pushes to host staging
with no device I/O (spec §4.2). -/
def GrowableBuffer.push {α : Type} (b : GrowableBuffer α) (v : α) : GrowableBuffer α :=
  { b with staging := b.staging ++ [v] }

/-- Push a whole list of vertices, one `push` at a time. -/
def GrowableBuffer.pushList {α : Type} (b : GrowableBuffer α) (vs : List α) :
    GrowableBuffer α :=
  vs.foldl GrowableBuffer.push b

/-- Modelled from the spec: `update()`/`sync()` (spec §4.2): grows device
capacity geometrically (doubling) when staging exceeds it, then uploads the
staging contents in one upload; called exactly once per session finalize. -/
def GrowableBuffer.update {α : Type} (b : GrowableBuffer α) :
    GrowableBuffer α × List GLCall :=
  let newCap :=
    if b.capacity < b.staging.length then max (2 * b.capacity) b.staging.length
    else b.capacity
  ({ b with capacity := newCap, length := b.staging.length },
   [GLCall.bufferData b.bufferId b.staging.length])

/-- Modelled from the spec: `get_info()` exposes the buffer id and the
logically-used length for the draw call. -/
def GrowableBuffer.get_info {α : Type} (b : GrowableBuffer α) : BufferInfo :=
  { id := b.bufferId, length := b.length }

/-- Modelled from the spec: `circle_program::ProgramUniformValues`
(circle_program.rs is not under src/).  Spec §4.3: the filled-shape draw
uploads color, point-size and the "is-square" flag, and draws in point or
triangle mode depending on the shape kind encoded by the session. -/
structure ProgramUniformValues where
  color : List ℚ
  point_size : ℚ
  square : Nat
  mode : Nat
  deriving Repr, DecidableEq

/-- Modelled from the spec: `SpriteProgramUniformValues` (the sprite session
module is not under src/).  Spec §4.4: only a color and a point-size uniform;
the texture sampler is bound externally by the host, so no texture handle is
carried here. -/
structure SpriteProgramUniformValues where
  color : List ℚ
  point_size : ℚ
  deriving Repr, DecidableEq

/-- Modelled from the spec: `CircleProgram` (circle_program.rs is not under
src/).  Spec §4.3: the filled-shape program handle with cached uniform and
attribute locations (color, point size, "is-square" flag, matrix, position). -/
structure CircleProgram where
  program : Nat
  matrix_uniform : Int
  square_uniform : Int
  point_size_uniform : Int
  bcol_uniform : Int
  pos_attr : Int
  deriving Repr, DecidableEq

/-- Modelled from the spec: `CircleProgram::set_viewport` (spec §4.3 and
§4.1): same derivation as `SpriteProgram::set_viewport` — binds the program,
uploads the matrix uniform, returns `device_per_logical`. -/
def CircleProgram.set_viewport (cp : CircleProgram) (window_dim : FixedAspectVec2)
    (game_width : ℚ) : ViewportResult :=
  let game_height := window_dim.heightOverWidth * game_width
  let scalex := 2 / game_width
  let scaley := 2 / game_height
  let tx : ℚ := -1
  let ty : ℚ := 1
  let matrix : Matrix3 := [[scalex, 0, 0], [0, -scaley, 0], [tx, ty, 1]]
  { matrix := matrix
    pointMul := window_dim.width / game_width
    calls := [GLCall.useProgram cp.program,
              GLCall.uniformMatrix3fv cp.matrix_uniform matrix] }

/-- Modelled from the spec: `CircleProgram::set_buffer_and_draw` (spec §4.3):
same call sequence as the draw of the sprite program (mirroring
sprite_program.rs lines 84-149), with the uniform values taken from
`ProgramUniformValues`. -/
def CircleProgram.set_buffer_and_draw (cp : CircleProgram)
    (un : ProgramUniformValues) (buffer : BufferInfo) : List GLCall :=
  [GLCall.bindBuffer ARRAY_BUFFER buffer.id,
   GLCall.drawArrays un.mode 0 1,
   GLCall.bindBuffer ARRAY_BUFFER 0,
   GLCall.useProgram cp.program,
   GLCall.uniform1f cp.point_size_uniform un.point_size,
   GLCall.uniform4fv cp.bcol_uniform un.color,
   GLCall.uniform1i cp.square_uniform (Int.ofNat un.square),
   GLCall.bindBuffer ARRAY_BUFFER buffer.id,
   GLCall.enableVertexAttribArray cp.pos_attr.toNat,
   GLCall.vertexAttribPointer cp.pos_attr.toNat,
   GLCall.drawArrays un.mode 0 buffer.length,
   GLCall.bindBuffer ARRAY_BUFFER 0]

/-- `SimpleCanvas` (lib.rs lines 153-167).  The `circle_matrix` and
`sprite_matrix` fields model the matrix uniform currently stored in each GL
program object (written by the `UniformMatrix3fv` call of `set_viewport`);
in Rust this state lives on the GL side, not in the struct. -/
structure SimpleCanvas where
  circle_program : CircleProgram
  sprite_program : SpriteProgram
  circle_matrix : Matrix3
  sprite_matrix : Matrix3
  point_mul : ℚ
  circle_buffer : GrowableBuffer CircleVertex
  sprite_buffer : GrowableBuffer SpriteVertex
  color : List ℚ
  deriving Repr, DecidableEq

/-- `SimpleCanvas::set_default_color` (lib.rs lines 170-172). -/
def SimpleCanvas.set_default_color (c : SimpleCanvas) (color : List ℚ) :
    SimpleCanvas :=
  { c with color := color }

/-- `SimpleCanvas::set_viewport` (lib.rs lines 174-178): forwards to both
programs with the same arguments, keeps the `PointMul` returned by the circle program and
discards the one returned by the sprite program. -/
def SimpleCanvas.set_viewport (c : SimpleCanvas) (window_dim : FixedAspectVec2)
    (game_width : ℚ) : SimpleCanvas × List GLCall :=
  let r1 := c.circle_program.set_viewport window_dim game_width
  let r2 := c.sprite_program.set_viewport window_dim game_width
  ({ c with point_mul := r1.pointMul,
            circle_matrix := r1.matrix,
            sprite_matrix := r2.matrix },
   r1.calls ++ r2.calls)

/-- `SimpleCanvas::new` (lib.rs lines 182-207): fresh buffers, both programs
set to the viewport `(window_dim, window_dim.width)`, default color white.
Shader compilation and linking are out of scope (spec §1), so the two linked
program handles and the ids of the two generated GL buffers are parameters. -/
def SimpleCanvas.new (cp : CircleProgram) (sp : SpriteProgram)
    (circleBufId spriteBufId : Nat) (window_dim : FixedAspectVec2) : SimpleCanvas :=
  let r1 := cp.set_viewport window_dim window_dim.width
  let r2 := sp.set_viewport window_dim window_dim.width
  { circle_program := cp
    sprite_program := sp
    circle_matrix := r1.matrix
    sprite_matrix := r2.matrix
    point_mul := r1.pointMul
    circle_buffer := GrowableBuffer.new CircleVertex circleBufId
    sprite_buffer := GrowableBuffer.new SpriteVertex spriteBufId
    color := [1, 1, 1, 1] }

/-- `ArrowSession` state owned by the session handle: the pre-scaled radius
(lib.rs lines 226-234). -/
structure ArrowSession where
  radius : ℚ
  deriving Repr, DecidableEq

/-- `LineSession` state owned by the session handle: the pre-scaled radius
(lib.rs lines 236-243). -/
structure LineSession where
  radius : ℚ
  deriving Repr, DecidableEq

/-- `SimpleCanvas::sprites` (lib.rs lines 209-212): clears the sprite buffer
and opens a sprite session borrowing the canvas. -/
def SimpleCanvas.sprites (c : SimpleCanvas) : SimpleCanvas :=
  { c with sprite_buffer := c.sprite_buffer.clear }

/-- `SimpleCanvas::circles` (lib.rs lines 214-217): clears the circle buffer
and opens a circle session borrowing the canvas. -/
def SimpleCanvas.circles (c : SimpleCanvas) : SimpleCanvas :=
  { c with circle_buffer := c.circle_buffer.clear }

/-- `SimpleCanvas::squares` (lib.rs lines 218-221). -/
def SimpleCanvas.squares (c : SimpleCanvas) : SimpleCanvas :=
  { c with circle_buffer := c.circle_buffer.clear }

/-- `SimpleCanvas::rects` (lib.rs lines 222-225). -/
def SimpleCanvas.rects (c : SimpleCanvas) : SimpleCanvas :=
  { c with circle_buffer := c.circle_buffer.clear }

/-- `SimpleCanvas::arrows` (lib.rs lines 226-234): clears the circle buffer
and captures `radius * point_mul` into the session. -/
def SimpleCanvas.arrows (c : SimpleCanvas) (radius : ℚ) :
    SimpleCanvas × ArrowSession :=
  let c2 := { c with circle_buffer := c.circle_buffer.clear }
  let kk := c2.point_mul
  (c2, { radius := radius * kk })

/-- `SimpleCanvas::lines` (lib.rs lines 236-243): clears the circle buffer
and captures `radius * point_mul` into the session. -/
def SimpleCanvas.lines (c : SimpleCanvas) (radius : ℚ) :
    SimpleCanvas × LineSession :=
  let c2 := { c with circle_buffer := c.circle_buffer.clear }
  let kk := c2.point_mul
  (c2, { radius := radius * kk })

/-- `Uniforms::send_and_draw` (lib.rs lines 134-141): syncs the circle buffer
to the device, then hands its info to the draw of the circle program. -/
def Uniforms.send_and_draw (c : SimpleCanvas) (un : ProgramUniformValues) :
    SimpleCanvas × List GLCall :=
  let r := c.circle_buffer.update
  let drawCalls := c.circle_program.set_buffer_and_draw un r.1.get_info
  ({ c with circle_buffer := r.1 }, r.2 ++ drawCalls)

/-- `SpriteUniforms::send_and_draw` (lib.rs lines 112-119): syncs the sprite
buffer to the device, then hands its info to the draw of the sprite program.
Sprites are drawn as point sprites (spec glossary), so the mode is
`GL_POINTS`, and the unused shape flag is passed as 0. -/
def SpriteUniforms.send_and_draw (c : SimpleCanvas)
    (un : SpriteProgramUniformValues) : SimpleCanvas × List GLCall :=
  let r := c.sprite_buffer.update
  let drawCalls := c.sprite_program.set_buffer_and_draw un.point_size un.color 0
    r.1.get_info.id GL_POINTS r.1.get_info.length
  ({ c with sprite_buffer := r.1 }, r.2 ++ drawCalls)

/-- How a drawing session ends (spec §4.5): the explicit terminal finalize,
or being dropped without finalizing. -/
inductive SessionEnd where
  | finalize
  | drop
  deriving Repr, DecidableEq

/-- A whole sprite session lifecycle: open (clears the buffer), push the
given vertices (host staging only), then finalize (`send_and_draw`) or drop.
Dropping runs no teardown: the sessions implement no `Drop`
(lib.rs lines 160-163), so the drop branch makes no GL calls. -/
def runSpriteSession (c : SimpleCanvas) (vs : List SpriteVertex)
    (un : SpriteProgramUniformValues) (e : SessionEnd) :
    SimpleCanvas × List GLCall :=
  let c1 := c.sprites
  let c2 := { c1 with sprite_buffer := c1.sprite_buffer.pushList vs }
  match e with
  | SessionEnd.finalize => SpriteUniforms.send_and_draw c2 un
  | SessionEnd.drop => (c2, [])

/-- The shared tail of every filled-shape session lifecycle, after the
session has been opened on `c1`: push the given vertices (host staging
only), then finalize (`send_and_draw`) or drop.  Dropping runs no teardown:
the sessions implement no `Drop` (lib.rs lines 160-163), so the drop branch
makes no GL calls. -/
def runFilledSession (c1 : SimpleCanvas) (vs : List CircleVertex)
    (un : ProgramUniformValues) (e : SessionEnd) :
    SimpleCanvas × List GLCall :=
  let c2 := { c1 with circle_buffer := c1.circle_buffer.pushList vs }
  match e with
  | SessionEnd.finalize => Uniforms.send_and_draw c2 un
  | SessionEnd.drop => (c2, [])

/-- A whole circle session lifecycle: open (clears the buffer), push,
then finalize or drop. -/
def runCircleSession (c : SimpleCanvas) (vs : List CircleVertex)
    (un : ProgramUniformValues) (e : SessionEnd) :
    SimpleCanvas × List GLCall :=
  runFilledSession c.circles vs un e

/-- One public canvas operation, for reachability arguments over the canvas
state.  `clearColor` only touches the GL clear state, not the canvas. -/
inductive CanvasOp where
  | viewport (window_dim : FixedAspectVec2) (game_width : ℚ)
  | defaultColor (color : List ℚ)
  | clearColor (back_color : List ℚ)
  | spriteSession (vs : List SpriteVertex) (un : SpriteProgramUniformValues)
      (e : SessionEnd)
  | circleSession (vs : List CircleVertex) (un : ProgramUniformValues)
      (e : SessionEnd)
  | squareSession (vs : List CircleVertex) (un : ProgramUniformValues)
      (e : SessionEnd)
  | rectSession (vs : List CircleVertex) (un : ProgramUniformValues)
      (e : SessionEnd)
  | lineSession (radius : ℚ) (vs : List CircleVertex)
      (un : ProgramUniformValues) (e : SessionEnd)
  | arrowSession (radius : ℚ) (vs : List CircleVertex)
      (un : ProgramUniformValues) (e : SessionEnd)

/-- The canvas state after one public operation. -/
def SimpleCanvas.step (c : SimpleCanvas) : CanvasOp → SimpleCanvas
  | CanvasOp.viewport wd gw => (c.set_viewport wd gw).1
  | CanvasOp.defaultColor col => c.set_default_color col
  | CanvasOp.clearColor _ => c
  | CanvasOp.spriteSession vs un e => (runSpriteSession c vs un e).1
  | CanvasOp.circleSession vs un e => (runCircleSession c vs un e).1
  | CanvasOp.squareSession vs un e => (runFilledSession c.squares vs un e).1
  | CanvasOp.rectSession vs un e => (runFilledSession c.rects vs un e).1
  | CanvasOp.lineSession r vs un e => (runFilledSession (c.lines r).1 vs un e).1
  | CanvasOp.arrowSession r vs un e => (runFilledSession (c.arrows r).1 vs un e).1

/-- The canvas state after a sequence of public operations. -/
def SimpleCanvas.runOps (c : SimpleCanvas) (ops : List CanvasOp) : SimpleCanvas :=
  ops.foldl SimpleCanvas.step c

/-- Open an arrow session, then change the viewport on the canvas: returns
the (still open) session and the updated canvas. -/
def arrowsThenViewport (c : SimpleCanvas) (radius : ℚ)
    (window_dim : FixedAspectVec2) (game_width : ℚ) :
    ArrowSession × SimpleCanvas :=
  let p := c.arrows radius
  let q := p.1.set_viewport window_dim game_width
  (p.2, q.1)

/-- Open a line session, then change the viewport on the canvas: returns
the (still open) session and the updated canvas. -/
def linesThenViewport (c : SimpleCanvas) (radius : ℚ)
    (window_dim : FixedAspectVec2) (game_width : ℚ) :
    LineSession × SimpleCanvas :=
  let p := c.lines radius
  let q := p.1.set_viewport window_dim game_width
  (p.2, q.1)

/-! ## Helper lemmas -/

@[simp]
theorem GrowableBuffer.pushList_staging {α : Type} (b : GrowableBuffer α)
    (vs : List α) : (b.pushList vs).staging = b.staging ++ vs := by
  induction vs generalizing b with
  | nil => simp [GrowableBuffer.pushList]
  | cons v tl ih =>
      show (GrowableBuffer.pushList (b.push v) tl).staging = b.staging ++ v :: tl
      rw [ih]
      simp [GrowableBuffer.push]

@[simp]
theorem GrowableBuffer.pushList_bufferId {α : Type} (b : GrowableBuffer α)
    (vs : List α) : (b.pushList vs).bufferId = b.bufferId := by
  induction vs generalizing b with
  | nil => rfl
  | cons v tl ih =>
      show (GrowableBuffer.pushList (b.push v) tl).bufferId = b.bufferId
      rw [ih]
      rfl

/-! ## Claims -/

/-- C1: for every window dimension (positive width and height) and every
logical width greater than zero, `SpriteProgram::set_viewport` builds the
projection matrix with `scale_x = 2/logical_width` and
`scale_y = 2/logical_height` (where
`logical_height = height_over_width * logical_width`), placed as
`diag(scale_x, -scale_y)` with translation components `(-1, +1)`, and
returns `device_per_logical = window pixel width / logical width`; both
scale factors are positive. -/
theorem set_viewport_spec (sp : SpriteProgram) (wd : FixedAspectVec2) (gw : ℚ)
    (hw : 0 < wd.width) (hh : 0 < wd.height) (hg : 0 < gw) :
    (sp.set_viewport wd gw).matrix =
      [[2 / gw, 0, 0], [0, -(2 / (wd.heightOverWidth * gw)), 0], [-1, 1, 1]] ∧
    0 < 2 / gw ∧ 0 < 2 / (wd.heightOverWidth * gw) ∧
    (sp.set_viewport wd gw).pointMul = wd.width / gw := by
  refine ⟨rfl, by positivity, ?_, rfl⟩
  have h1 : 0 < wd.heightOverWidth := by
    rw [FixedAspectVec2.heightOverWidth]
    exact div_pos hh hw
  positivity

/-- Witness for C1 at window 800x600 with logical width 100. -/
theorem set_viewport_spec_witness :
    ((0:ℚ) < (⟨800, 600⟩ : FixedAspectVec2).width ∧
     (0:ℚ) < (⟨800, 600⟩ : FixedAspectVec2).height ∧
     (0:ℚ) < 100) ∧
    ((sampleSpriteProgram.set_viewport ⟨800, 600⟩ 100).matrix =
       [[2 / 100, 0, 0],
        [0, -(2 / ((⟨800, 600⟩ : FixedAspectVec2).heightOverWidth * 100)), 0],
        [-1, 1, 1]] ∧
     (0:ℚ) < 2 / 100 ∧
     (0:ℚ) < 2 / ((⟨800, 600⟩ : FixedAspectVec2).heightOverWidth * 100) ∧
     (sampleSpriteProgram.set_viewport ⟨800, 600⟩ 100).pointMul =
       (⟨800, 600⟩ : FixedAspectVec2).width / 100) :=
  ⟨⟨by norm_num, by norm_num, by norm_num⟩,
   set_viewport_spec sampleSpriteProgram ⟨800, 600⟩ 100
     (by norm_num) (by norm_num) (by norm_num)⟩

/-- C8: for window dimensions 800x600 and logical width 100, `set_viewport`
computes `logical_height = 75`, `scale_x = 0.02`, `scale_y = 2/75`, and
returns `device_per_logical = 8`. -/
theorem set_viewport_scenario_800x600 (sp : SpriteProgram) :
    (⟨800, 600⟩ : FixedAspectVec2).heightOverWidth * 100 = 75 ∧
    (sp.set_viewport ⟨800, 600⟩ 100).matrix =
      [[0.02, 0, 0], [0, -(2 / 75), 0], [-1, 1, 1]] ∧
    (sp.set_viewport ⟨800, 600⟩ 100).pointMul = 8 := by
  refine ⟨by norm_num [FixedAspectVec2.heightOverWidth], ?_, ?_⟩
  · show ([[2 / 100, 0, 0],
      [0, -(2 / ((⟨800, 600⟩ : FixedAspectVec2).heightOverWidth * 100)), 0],
      [-1, 1, 1]] : Matrix3) = [[0.02, 0, 0], [0, -(2 / 75), 0], [-1, 1, 1]]
    norm_num [FixedAspectVec2.heightOverWidth]
  · show (⟨800, 600⟩ : FixedAspectVec2).width / 100 = 8
    norm_num

/-- C3 counterexample: at concrete arguments (point size 2, white, buffer 5,
point mode, batch length 3) the trace of `set_buffer_and_draw` contains no
zero-length draw call at all; its throwaway draw has vertex count 1 and is
issued after binding the new buffer (and is followed by an unbind). -/
theorem workaround_not_zero_length :
    (¬ ∃ e ∈ sampleSpriteProgram.set_buffer_and_draw 2 [1, 1, 1, 1] 0 5 GL_POINTS 3,
        isZeroDraw e = true) ∧
    (sampleSpriteProgram.set_buffer_and_draw 2 [1, 1, 1, 1] 0 5 GL_POINTS 3).take 3 =
      [GLCall.bindBuffer ARRAY_BUFFER 5, GLCall.drawArrays GL_POINTS 0 1,
       GLCall.bindBuffer ARRAY_BUFFER 0] := by
  decide

/-- C3 amended: before the real batched draw call, `set_buffer_and_draw`
issues one throwaway one-vertex draw call (vertex count 1, not 0) on the
newly bound buffer — it binds the new buffer, draws, and unbinds — as the
platform workaround for rasterizer point-coordinate state leaking across a
primitive-mode change; the only draw calls of the trace are this throwaway
draw followed by the one real batched draw. -/
theorem workaround_draw_before_batch (sp : SpriteProgram) (ps : ℚ)
    (col : List ℚ) (sq bid mode len : Nat) :
    (sp.set_buffer_and_draw ps col sq bid mode len).take 3 =
      [GLCall.bindBuffer ARRAY_BUFFER bid, GLCall.drawArrays mode 0 1,
       GLCall.bindBuffer ARRAY_BUFFER 0] ∧
    drawsOf (sp.set_buffer_and_draw ps col sq bid mode len) =
      [GLCall.drawArrays mode 0 1, GLCall.drawArrays mode 0 len] := by
  exact ⟨rfl, by simp [SpriteProgram.set_buffer_and_draw, drawsOf, isDraw]⟩

/-- C9 counterexample: at concrete arguments the sprite draw trace contains a
scalar-integer shape-flag uniform upload (`Uniform1i` on `square_uniform`),
so the draw does not upload only a color and a point-size uniform. -/
theorem sprite_draw_uploads_shape_flag :
    ∃ e ∈ sampleSpriteProgram.set_buffer_and_draw 2 [1, 1, 1, 1] 0 5 GL_POINTS 3,
      isShapeFlagCall e = true := by
  decide

/-- C9 amended: the sprite draw uploads exactly three uniforms — point size,
color, and a shape-flag value sent to `square_uniform` even though neither
sprite shader declares a `square` (or `bcol`) uniform, so that upload has no
effect — and it binds no texture itself; texture binding is the responsibility of the host,
done before the draw. -/
theorem sprite_draw_uniform_calls (sp : SpriteProgram) (ps : ℚ)
    (col : List ℚ) (sq bid mode len : Nat) :
    (sp.set_buffer_and_draw ps col sq bid mode len).filter isUniformCall =
      [GLCall.uniform1f sp.point_size_uniform ps,
       GLCall.uniform4fv sp.bcol_uniform col,
       GLCall.uniform1i sp.square_uniform (Int.ofNat sq)] ∧
    (sp.set_buffer_and_draw ps col sq bid mode len).filter isBindTexture = [] ∧
    "square" ∉ spriteVertexShaderUniforms ∧
    "square" ∉ spriteFragmentShaderUniforms ∧
    "bcol" ∉ spriteVertexShaderUniforms ∧
    "bcol" ∉ spriteFragmentShaderUniforms := by
  refine ⟨?_, ?_, by decide, by decide, by decide, by decide⟩ <;>
    simp [SpriteProgram.set_buffer_and_draw, isUniformCall, isBindTexture]

/-- C10: every call to `SpriteProgram::set_buffer_and_draw` returns with no
buffer bound to the `ARRAY_BUFFER` target, whatever was bound before: both
the workaround dummy-draw block (the first three calls) and the real draw
block end by rebinding buffer 0. -/
theorem set_buffer_and_draw_unbinds (sp : SpriteProgram) (ps : ℚ)
    (col : List ℚ) (sq bid mode len b0 : Nat) :
    boundAfter b0 (sp.set_buffer_and_draw ps col sq bid mode len) = 0 ∧
    (sp.set_buffer_and_draw ps col sq bid mode len).getLast? =
      some (GLCall.bindBuffer ARRAY_BUFFER 0) ∧
    ((sp.set_buffer_and_draw ps col sq bid mode len).take 3).getLast? =
      some (GLCall.bindBuffer ARRAY_BUFFER 0) := by
  refine ⟨?_, rfl, rfl⟩
  simp [SpriteProgram.set_buffer_and_draw, boundAfter]

/-- C2: a sprite session that pushes `K = vs.length` shapes and calls the
terminal `send_and_draw` performs exactly one device upload — of the `K`
staged vertices — and, besides the fixed one-vertex workaround draw, issues
exactly one batched draw call, whose vertex count is `K`; in particular it
never issues `K` separate batch draws. -/
theorem sprite_session_single_batched_draw (c : SimpleCanvas)
    (vs : List SpriteVertex) (un : SpriteProgramUniformValues) :
    uploadCount (runSpriteSession c vs un SessionEnd.finalize).2 = 1 ∧
    (runSpriteSession c vs un SessionEnd.finalize).2.filter isUpload =
      [GLCall.bufferData c.sprite_buffer.bufferId vs.length] ∧
    drawsOf (runSpriteSession c vs un SessionEnd.finalize).2 =
      [GLCall.drawArrays GL_POINTS 0 1,
       GLCall.drawArrays GL_POINTS 0 vs.length] := by
  refine ⟨?_, ?_, ?_⟩ <;>
    simp [runSpriteSession, SpriteUniforms.send_and_draw, SimpleCanvas.sprites,
      GrowableBuffer.update, GrowableBuffer.clear, GrowableBuffer.get_info,
      SpriteProgram.set_buffer_and_draw, drawsOf, uploadCount, isUpload, isDraw]

/-- C4: each of the six session-opening calls clears the matching buffer
(length 0, host staging empty, device capacity untouched) at session open and
leaves the other buffer alone; finalizing a session does not clear the
buffer, so its content between sessions is the stale content of the previous
session. -/
theorem sessions_clear_on_open (c : SimpleCanvas) (r r2 : ℚ)
    (vs : List SpriteVertex) (cvs : List CircleVertex)
    (un : SpriteProgramUniformValues) (cun : ProgramUniformValues) :
    (c.circles.circle_buffer.length = 0 ∧ c.circles.circle_buffer.staging = [] ∧
     c.circles.circle_buffer.capacity = c.circle_buffer.capacity ∧
     c.circles.sprite_buffer = c.sprite_buffer) ∧
    (c.squares.circle_buffer.length = 0 ∧ c.squares.circle_buffer.staging = []) ∧
    (c.rects.circle_buffer.length = 0 ∧ c.rects.circle_buffer.staging = []) ∧
    ((c.lines r).1.circle_buffer.length = 0 ∧
     (c.lines r).1.circle_buffer.staging = []) ∧
    ((c.arrows r2).1.circle_buffer.length = 0 ∧
     (c.arrows r2).1.circle_buffer.staging = []) ∧
    (c.sprites.sprite_buffer.length = 0 ∧ c.sprites.sprite_buffer.staging = [] ∧
     c.sprites.sprite_buffer.capacity = c.sprite_buffer.capacity ∧
     c.sprites.circle_buffer = c.circle_buffer) ∧
    (runSpriteSession c vs un SessionEnd.finalize).1.sprite_buffer.staging = vs ∧
    (runCircleSession c cvs cun SessionEnd.finalize).1.circle_buffer.staging = cvs := by
  refine ⟨⟨rfl, rfl, rfl, rfl⟩, ⟨rfl, rfl⟩, ⟨rfl, rfl⟩, ⟨rfl, rfl⟩, ⟨rfl, rfl⟩,
    ⟨rfl, rfl, rfl, rfl⟩, ?_, ?_⟩ <;>
    simp [runSpriteSession, runCircleSession, runFilledSession,
      SpriteUniforms.send_and_draw, Uniforms.send_and_draw,
      SimpleCanvas.sprites, SimpleCanvas.circles,
      GrowableBuffer.update, GrowableBuffer.clear]

/-- C5: a session that is dropped without calling its terminal finalize makes
no GL call at all over its whole lifecycle (open, pushes, drop): the pending
batch is silently discarded with no device upload and no draw. -/
theorem dropped_session_no_device_calls (c : SimpleCanvas)
    (vs : List SpriteVertex) (cvs : List CircleVertex)
    (un : SpriteProgramUniformValues) (cun : ProgramUniformValues) :
    (runSpriteSession c vs un SessionEnd.drop).2 = [] ∧
    (runCircleSession c cvs cun SessionEnd.drop).2 = [] :=
  ⟨rfl, rfl⟩

/-- C6: a `lines(radius)` or `arrows(radius)` session stores
`radius * point_mul` with the `point_mul` (`device_per_logical`) of the canvas as
it was at session-open time, and a later `set_viewport` call leaves the
radius already held by the open session unchanged — the captured session
state does not depend on the viewport change at all. -/
theorem session_radius_captured_at_open (c : SimpleCanvas) (r : ℚ)
    (wd wd2 : FixedAspectVec2) (gw gw2 : ℚ) :
    (c.arrows r).2.radius = r * c.point_mul ∧
    (c.lines r).2.radius = r * c.point_mul ∧
    (arrowsThenViewport c r wd gw).1.radius = r * c.point_mul ∧
    (linesThenViewport c r wd gw).1.radius = r * c.point_mul ∧
    (arrowsThenViewport c r wd gw).1 = (arrowsThenViewport c r wd2 gw2).1 ∧
    (linesThenViewport c r wd gw).1 = (linesThenViewport c r wd2 gw2).1 :=
  ⟨rfl, rfl, rfl, rfl, rfl, rfl⟩

/-- One public canvas operation keeps the uploaded matrices of the two programs
equal: only `set_viewport` rewrites them, and it writes the same matrix,
computed from the same arguments, to both. -/
theorem step_preserves_matrix_consistency (c : SimpleCanvas) (op : CanvasOp)
    (h : c.circle_matrix = c.sprite_matrix) :
    (c.step op).circle_matrix = (c.step op).sprite_matrix := by
  cases op with
  | viewport wd gw =>
      simp [SimpleCanvas.step, SimpleCanvas.set_viewport,
        CircleProgram.set_viewport, SpriteProgram.set_viewport]
  | defaultColor col => exact h
  | clearColor bc => exact h
  | spriteSession vs un e =>
      cases e <;>
        simp [SimpleCanvas.step, runSpriteSession, SpriteUniforms.send_and_draw,
          SimpleCanvas.sprites, h]
  | circleSession vs un e =>
      cases e <;>
        simp [SimpleCanvas.step, runCircleSession, runFilledSession,
          Uniforms.send_and_draw, SimpleCanvas.circles, h]
  | squareSession vs un e =>
      cases e <;>
        simp [SimpleCanvas.step, runFilledSession, Uniforms.send_and_draw,
          SimpleCanvas.squares, h]
  | rectSession vs un e =>
      cases e <;>
        simp [SimpleCanvas.step, runFilledSession, Uniforms.send_and_draw,
          SimpleCanvas.rects, h]
  | lineSession r vs un e =>
      cases e <;>
        simp [SimpleCanvas.step, runFilledSession, Uniforms.send_and_draw,
          SimpleCanvas.lines, h]
  | arrowSession r vs un e =>
      cases e <;>
        simp [SimpleCanvas.step, runFilledSession, Uniforms.send_and_draw,
          SimpleCanvas.arrows, h]

/-- Matrix consistency is preserved by any sequence of public operations. -/
theorem runOps_preserves_matrix_consistency (c : SimpleCanvas)
    (ops : List CanvasOp) (h : c.circle_matrix = c.sprite_matrix) :
    (c.runOps ops).circle_matrix = (c.runOps ops).sprite_matrix := by
  induction ops generalizing c with
  | nil => exact h
  | cons op tl ih => exact ih _ (step_preserves_matrix_consistency c op h)

/-- C7: in every state reachable from `SimpleCanvas::new` by public
operations — in particular right after construction and right after every
`set_viewport` call — the filled-shape program and the sprite program hold
the same uploaded projection matrix, computed from the same window
dimensions and logical width. -/
theorem programs_transform_consistent (cp : CircleProgram) (sp : SpriteProgram)
    (cbId sbId : Nat) (wd : FixedAspectVec2) (ops : List CanvasOp) :
    ((SimpleCanvas.new cp sp cbId sbId wd).runOps ops).circle_matrix =
      ((SimpleCanvas.new cp sp cbId sbId wd).runOps ops).sprite_matrix :=
  runOps_preserves_matrix_consistency _ ops rfl

end Egaku2d
